import Mathlib

/-!
Shallow embedding of the pixel-accumulation and ray-generation core of the
repository: `src/raysect/optical/observer/pipeline2d.py` (RGBPipeline2D and
its collaborators) and `src/raysect/optical/observer/orthographic.py`
(OrthographicCamera).

Numeric values are embedded as rationals.  Wall-clock time (`time()`), the
jitter entropy of the stratified point sampler and the external
`ciexyz_to_srgb` colour transform are passed to the operations as explicit
parameters, so every definition is executable.  Collaborators that live in
this repository but outside `src/` (`Frame2D` from
`raysect/optical/observer/frame`, `Rectangle` and `SingleRay` from the
point/vector generator modules) are modelled from the spec and marked as
such in their doc comments.
-/

namespace Raysect

/-- Point in 3-space with rational coordinates (raysect.core Point). -/
structure Point3 where
  x : ℚ
  y : ℚ
  z : ℚ
deriving DecidableEq

/-- Direction vector in 3-space (raysect.core Vector). -/
structure Vector3 where
  x : ℚ
  y : ℚ
  z : ℚ
deriving DecidableEq

/-- Effect of the affine transform `translate(px, py, 0)` on a point:
the offset is added to the coordinates. -/
def Point3.translateXY (p : Point3) (px py : ℚ) : Point3 :=
  ⟨p.x + px, p.y + py, p.z⟩

/-- Effect of the affine transform `translate(px, py, 0)` on a direction
vector: a pure translation leaves a vector unchanged. -/
def Vector3.translateXY (v : Vector3) (px py : ℚ) : Vector3 :=
  v

/-- A ray: origin, direction, and the template attributes that
`ray_template.copy(origin, direction)` carries over unchanged. -/
structure Ray where
  origin : Point3
  direction : Vector3
  min_wavelength : ℚ
  max_wavelength : ℚ
  num_samples : ℕ
deriving DecidableEq

/-- The source's `ray_template.copy(origin, direction)`: a fresh ray holding
the given origin and direction and the template's remaining attributes. -/
def Ray.copy (r : Ray) (o : Point3) (d : Vector3) : Ray :=
  { r with origin := o, direction := d }

/-- Modelled from the spec: the external stratified point-sampling
collaborator (`Rectangle` from `raysect.optical.observer.point_generator`,
this repository but not under `src/`).  It is parameterized by the pixel
footprint extents in both axes. -/
structure Rectangle where
  width : ℚ
  height : ℚ
deriving DecidableEq

/-- Modelled from the spec: sampling the rectangle returns a point sequence
of exactly the requested length, jittered across the footprint; the jitter
comes from an external entropy source, made explicit here as a stream of
rational pairs. -/
def Rectangle.sample (r : Rectangle) (jitter : ℕ → ℚ × ℚ) (n : ℕ) : List Point3 :=
  (List.range n).map (fun i => ⟨r.width * (jitter i).1, r.height * (jitter i).2, 0⟩)

/-- Modelled from the spec: the external single-direction generator
(`SingleRay` from `raysect.optical.observer.vector_generators`, this
repository but not under `src/`): it returns the requested number of copies
of the fixed camera-axis direction. -/
def SingleRay.sample (n : ℕ) : List Vector3 :=
  List.replicate n ⟨0, 0, 1⟩

/-- State of `OrthographicCamera`: configuration fields set by
`__init__`/the property setters, the derived image geometry, and the point
generator built by `__init__`.  The external vector generator is the
stateless `SingleRay`, so it needs no field. -/
structure OrthographicCamera where
  pixels : ℕ × ℕ
  width : ℚ
  pixel_samples : ℕ
  sub_sample : Bool
  image_delta : ℚ
  image_start_x : ℚ
  image_start_y : ℚ
  point_generator : Rectangle
deriving DecidableEq

/-- The source's `_update_image_geometry`: recompute the derived geometry
from the current width and pixel dimensions. -/
def OrthographicCamera.update_image_geometry (c : OrthographicCamera) : OrthographicCamera :=
  let delta := c.width / (c.pixels.1 : ℚ)
  { c with
    image_delta := delta,
    image_start_x := (1 / 2 : ℚ) * (c.pixels.1 : ℚ) * delta,
    image_start_y := (1 / 2 : ℚ) * (c.pixels.2 : ℚ) * delta }

/-- The source's `__init__`: store the configuration, set `width` through
its validating setter (non-positive widths are rejected), recompute the
derived geometry, and build the point generator from the freshly computed
`image_delta` in both axes. -/
def OrthographicCamera.make (pixels : ℕ × ℕ) (width : ℚ) (pixel_samples : ℕ)
    (sub_sample : Bool) : Except String OrthographicCamera :=
  if width ≤ 0 then
    Except.error "width can not be less than or equal to 0 meters."
  else
    let c0 : OrthographicCamera :=
      { pixels := pixels, width := width, pixel_samples := pixel_samples,
        sub_sample := sub_sample, image_delta := 0, image_start_x := 0,
        image_start_y := 0, point_generator := ⟨0, 0⟩ }
    let c1 := c0.update_image_geometry
    Except.ok { c1 with point_generator := ⟨c1.image_delta, c1.image_delta⟩ }

/-- The source's `width` setter: reject non-positive widths, store the new
width and recompute the derived geometry.  The point generator is not
rebuilt, exactly as in the source. -/
def OrthographicCamera.setWidth (c : OrthographicCamera) (w : ℚ) :
    Except String OrthographicCamera :=
  if w ≤ 0 then
    Except.error "width can not be less than or equal to 0 meters."
  else
    Except.ok ({ c with width := w }.update_image_geometry)

/-- The source's `pixels` setter: the base-class setter (external to the
observable scope) stores the value, then the subclass setter recomputes the
derived geometry.  The point generator is not rebuilt, exactly as in the
source. -/
def OrthographicCamera.setPixels (c : OrthographicCamera) (p : ℕ × ℕ) : OrthographicCamera :=
  ({ c with pixels := p }).update_image_geometry

/-- The source's `_generate_rays(ix, iy, ray_template)`: compute the pixel
translation from the derived geometry, draw `pixel_samples` origin points
from the stored point generator and as many direction vectors from the
single-direction generator, transform each pair into camera space and copy
the template onto it.  No input validation is performed by the source. -/
def OrthographicCamera.generate_rays (c : OrthographicCamera) (jitter : ℕ → ℚ × ℚ)
    (ix iy : ℤ) (tmpl : Ray) : List Ray :=
  let pixel_x := c.image_start_x - c.image_delta * (ix : ℚ)
  let pixel_y := c.image_start_y - c.image_delta * (iy : ℚ)
  let origin_points := c.point_generator.sample jitter c.pixel_samples
  let direction_vectors := SingleRay.sample c.pixel_samples
  (origin_points.zip direction_vectors).map
    (fun od => tmpl.copy (od.1.translateXY pixel_x pixel_y) (od.2.translateXY pixel_x pixel_y))

/-- Per-pixel per-channel statistic held by the frame buffer: mean,
variance and accumulated sample count. -/
structure Stat where
  mean : ℚ
  variance : ℚ
  samples : ℕ
deriving DecidableEq

/-- Modelled from the spec: the two-group pooled statistical merge
performed by `Frame2D.combine_samples` (from
`raysect.optical.observer.frame`, this repository but not under `src/`):
the pooled mean is weighted by the two groups' counts, the pooled variance
combines the count-weighted within-group variances with the between-group
dispersion, and the counts add.  A division by a zero total count follows
the rational convention x / 0 = 0 (both groups are then empty and zeroed
statistics stay zero). -/
def Stat.combine (s : Stat) (mean variance : ℚ) (count : ℕ) : Stat :=
  let n1 : ℚ := (s.samples : ℚ)
  let n2 : ℚ := (count : ℚ)
  let n : ℚ := n1 + n2
  { mean := (n1 * s.mean + n2 * mean) / n,
    variance := (n1 * s.variance + n2 * variance) / n
      + n1 * n2 * (s.mean - mean) ^ 2 / n ^ 2,
    samples := s.samples + count }

/-- Modelled from the spec: the `Frame2D` buffer (from
`raysect.optical.observer.frame`, this repository but not under `src/`):
a statistics entry per pixel per channel, indexed (x, y), three channels. -/
structure Frame2D where
  pixels : ℕ × ℕ
  data : ℕ → ℕ → Fin 3 → Stat

/-- Modelled from the spec: `Frame2D(pixels, channels=3)` allocates
zero-initialised statistics (reallocation resets accumulated history). -/
def Frame2D.new (pixels : ℕ × ℕ) : Frame2D :=
  { pixels := pixels, data := fun _ _ _ => ⟨0, 0, 0⟩ }

/-- Point update of a doubly indexed store: entry (x, y) is replaced by a
function of its old value, every other entry is untouched.  This is the
shape of a single body iteration of the source's nested pixel loops. -/
def pointUpdate {β : Type} (upd : ℕ → ℕ → β → β) (x y : ℕ) (s : ℕ → ℕ → β) :
    ℕ → ℕ → β :=
  fun i j => if i = x ∧ j = y then upd i j (s i j) else s i j

/-- State update of channel c at pixel (x, y) of the frame data, the effect
of one `combine_samples` call on the underlying array. -/
def dataCombine (d : ℕ → ℕ → Fin 3 → Stat) (x y : ℕ) (c : Fin 3)
    (mean variance : ℚ) (count : ℕ) : ℕ → ℕ → Fin 3 → Stat :=
  fun i j k =>
    if i = x ∧ j = y ∧ k = c then (d i j k).combine mean variance count
    else d i j k

/-- Modelled from the spec: `Frame2D.combine_samples(x, y, channel, mean,
variance, sample_count)` folds a new group of samples into the stored
statistic of one pixel channel using the pooled merge rule. -/
def Frame2D.combine_samples (f : Frame2D) (x y : ℕ) (c : Fin 3)
    (mean variance : ℚ) (count : ℕ) : Frame2D :=
  { f with data := dataCombine f.data x y c mean variance count }

/-- Modelled from the spec: `Frame2D.error`, the per-channel standard error
variance / samples, averaged over the three channels as done by the
display's error map. -/
def Frame2D.errorMean (f : Frame2D) (i j : ℕ) : ℚ :=
  ((f.data i j 0).variance / ((f.data i j 0).samples : ℚ)
    + (f.data i j 1).variance / ((f.data i j 1).samples : ℚ)
    + (f.data i j 2).variance / ((f.data i j 2).samples : ℚ)) / 3

/-- The display buffer: `np.zeros((pixels[0], pixels[1], 3))`, an (x, y)
indexed array with three channels. -/
structure RGBFrame where
  pixels : ℕ × ℕ
  data : ℕ → ℕ → Fin 3 → ℚ

/-- Zero-filled display buffer, as allocated by `initialise`. -/
def RGBFrame.zero (pixels : ℕ × ℕ) : RGBFrame :=
  { pixels := pixels, data := fun _ _ _ => 0 }

/-- The source's `np.transpose(frame, (1, 0, 2))`: swap the two spatial
axes, keep the channel axis. -/
def RGBFrame.transpose (f : RGBFrame) : RGBFrame :=
  { pixels := (f.pixels.2, f.pixels.1), data := fun i j c => f.data j i c }

/-- Row-major nested loop: for x in range(nx), for y in range(ny), thread a
state through the body, exactly as the source's two nested for loops. -/
def loop2 {σ : Type} (nx ny : ℕ) (body : ℕ → ℕ → σ → σ) (init : σ) : σ :=
  (List.range nx).foldl
    (fun s x => (List.range ny).foldl (fun t y => body x y t) s) init

/-- State of `RGBPipeline2D`.  The `None` working arrays of a
never-initialised pipeline are represented by the all-zero functions (an
`update` before `initialise` is a crash in the source and no claim
quantifies over that state); the two frame buffers keep their `None`
states, on which the not-ready errors depend.  The resampled
colour-matching tables produced by the external `resample_ciexyz` are
represented by the slice descriptors they were resampled from. -/
structure RGBPipeline2D where
  sensitivity : ℚ
  display_progress : Bool
  display_timer : ℚ
  display_update_time : ℚ
  accumulate : Bool
  xyz_frame : Option Frame2D
  rgb_frame : Option RGBFrame
  working_mean : ℕ → ℕ → Fin 3 → ℚ
  working_variance : ℕ → ℕ → Fin 3 → ℚ
  resampled_xyz : List (ℚ × ℚ × ℕ)
  samples : ℕ

/-- A spectral slice descriptor as consumed by `initialise`. -/
structure SpectralSlice where
  min_wavelength : ℚ
  max_wavelength : ℚ
  num_samples : ℕ
deriving DecidableEq

/-- The source's `RGBPipeline2D.__init__`. -/
def RGBPipeline2D.make (sensitivity : ℚ) (display_progress : Bool)
    (display_update_time : ℚ) (accumulate : Bool) : RGBPipeline2D :=
  { sensitivity := sensitivity, display_progress := display_progress,
    display_timer := 0, display_update_time := display_update_time,
    accumulate := accumulate, xyz_frame := none, rgb_frame := none,
    working_mean := fun _ _ _ => 0, working_variance := fun _ _ _ => 0,
    resampled_xyz := [], samples := 0 }

/-- `RGBPipeline2D.__init__` with the source's default arguments
(sensitivity=1.0, display_progress=True, display_update_time=5,
accumulate=False). -/
def RGBPipeline2D.mkDefault : RGBPipeline2D :=
  RGBPipeline2D.make 1 true 5 false

/-- What `display()` sends to the external display surface: the RGB image
with the spatial axes transposed, and the transposed per-pixel mean
standard error map. -/
structure DisplayOutput where
  image : RGBFrame
  errorMap : ℕ → ℕ → ℚ

/-- The source's `display()`: raises the not-ready error when no display
buffer exists; an initialised pipeline shows the transposed RGB frame and
the transposed mean standard error of the XYZ frame.  A display buffer
without an XYZ frame (unreachable through the public operations) is the
source's attribute crash. -/
def RGBPipeline2D.display (p : RGBPipeline2D) : Except String DisplayOutput :=
  match p.rgb_frame with
  | none => Except.error "No frame data to display."
  | some rf =>
    match p.xyz_frame with
    | none => Except.error "AttributeError"
    | some xf => Except.ok { image := rf.transpose, errorMap := fun i j => xf.errorMean j i }

/-- The source's `save(filename)`: raises the not-ready error when no
display buffer exists; otherwise writes the display buffer with the two
spatial axes transposed. -/
def RGBPipeline2D.save (p : RGBPipeline2D) : Except String RGBFrame :=
  match p.rgb_frame with
  | none => Except.error "No frame data to save."
  | some rf => Except.ok rf.transpose

/-- The source's `_generate_srgb_frame`: for every pixel of the display
buffer, scale the frame buffer's mean XYZ by `sensitivity` and convert it
through the external `ciexyz_to_srgb` transform, passed here as the
function `convert`.  With either buffer missing the source would crash;
that state is unreachable through the call sites, and the model leaves the
pipeline unchanged there. -/
def RGBPipeline2D.generate_srgb_frame (p : RGBPipeline2D)
    (convert : ℚ → ℚ → ℚ → Fin 3 → ℚ) : RGBPipeline2D :=
  match p.rgb_frame, p.xyz_frame with
  | some rf, some xf =>
    let newData :=
      loop2 rf.pixels.1 rf.pixels.2
        (pointUpdate (fun ix iy _old => fun c =>
          convert ((xf.data ix iy 0).mean * p.sensitivity)
            ((xf.data ix iy 1).mean * p.sensitivity)
            ((xf.data ix iy 2).mean * p.sensitivity) c))
        rf.data
    { p with rgb_frame := some { pixels := rf.pixels, data := newData } }
  | _, _ => p

/-- The source's `_start_display`: reset the timer, and when progress
display is enabled refresh the display and stamp the timer with the current
wall-clock time.  The Boolean records whether a refresh happened. -/
def RGBPipeline2D.start_display (p : RGBPipeline2D) (now : ℚ) : RGBPipeline2D × Bool :=
  let p1 := { p with display_timer := 0 }
  if p1.display_progress = true then ({ p1 with display_timer := now }, true)
  else (p1, false)

/-- The source's `_update_display`: refresh only when progress display is
enabled and the elapsed wall-clock time exceeds `display_update_time`; a
refresh regenerates the display buffer and restamps the timer. -/
def RGBPipeline2D.update_display (p : RGBPipeline2D)
    (convert : ℚ → ℚ → ℚ → Fin 3 → ℚ) (now : ℚ) : RGBPipeline2D × Bool :=
  if p.display_progress = true ∧ now - p.display_timer > p.display_update_time then
    ({ p.generate_srgb_frame convert with display_timer := now }, true)
  else (p, false)

/-- The source's `initialise(pixels, pixel_samples, spectral_slices)`:
reuse the frame buffers only when accumulate mode is on, a frame exists and
its pixel dimensions match, otherwise reallocate both zeroed; zero the
working accumulator; resample the colour-matching functions per slice
(external resampler, represented by the slice descriptors); record
`pixel_samples`; start the display. -/
def RGBPipeline2D.initialise (p : RGBPipeline2D) (pixels : ℕ × ℕ)
    (pixel_samples : ℕ) (spectral_slices : List SpectralSlice) (now : ℚ) :
    RGBPipeline2D × Bool :=
  let realloc : Bool :=
    !p.accumulate ||
      (match p.xyz_frame with
       | none => true
       | some f => f.pixels != pixels)
  let p1 :=
    if realloc then
      { p with xyz_frame := some (Frame2D.new pixels),
               rgb_frame := some (RGBFrame.zero pixels) }
    else p
  let p2 := { p1 with
    working_mean := fun _ _ _ => 0,
    working_variance := fun _ _ _ => 0,
    resampled_xyz := spectral_slices.map
      (fun s : SpectralSlice => (s.min_wavelength, s.max_wavelength, s.num_samples)),
    samples := pixel_samples }
  p2.start_display now

/-- The source's `update(pixel_id, packed_result, slice_id)`: add the
packed per-channel means and variances into the working accumulator at the
given pixel (the slice id is ignored by the source too), then run the
throttled display update. -/
def RGBPipeline2D.update (p : RGBPipeline2D) (pixel_id : ℕ × ℕ)
    (packed : (Fin 3 → ℚ) × (Fin 3 → ℚ)) (slice_id : ℕ)
    (convert : ℚ → ℚ → ℚ → Fin 3 → ℚ) (now : ℚ) : RGBPipeline2D × Bool :=
  let x := pixel_id.1
  let y := pixel_id.2
  let p1 := { p with
    working_mean := fun i j c =>
      if i = x ∧ j = y then p.working_mean i j c + packed.1 c
      else p.working_mean i j c,
    working_variance := fun i j c =>
      if i = x ∧ j = y then p.working_variance i j c + packed.2 c
      else p.working_variance i j c }
  p1.update_display convert now

/-- The source's `finalise()`: for every pixel of the XYZ frame, fold the
working accumulator into the frame buffer with three `combine_samples`
calls (one per channel, each with `self._samples` as the new group's
count), regenerate the display buffer, and refresh the display when
progress display is enabled.  The Boolean records whether the final refresh
happened; a pipeline that was never initialised is the source's attribute
crash. -/
def RGBPipeline2D.finalise (p : RGBPipeline2D)
    (convert : ℚ → ℚ → ℚ → Fin 3 → ℚ) : Except String (RGBPipeline2D × Bool) :=
  match p.xyz_frame with
  | none => Except.error "AttributeError"
  | some xf =>
    let newFrame :=
      loop2 xf.pixels.1 xf.pixels.2
        (fun x y f =>
          ((f.combine_samples x y 0 (p.working_mean x y 0) (p.working_variance x y 0) p.samples).combine_samples
              x y 1 (p.working_mean x y 1) (p.working_variance x y 1) p.samples).combine_samples
              x y 2 (p.working_mean x y 2) (p.working_variance x y 2) p.samples)
        xf
    let p1 := { p with xyz_frame := some newFrame }
    let p2 := p1.generate_srgb_frame convert
    if p2.display_progress = true then
      match p2.display with
      | Except.error e => Except.error e
      | Except.ok _ => Except.ok (p2, true)
    else
      Except.ok (p2, false)

/-! Loop characterization lemmas: the nested pixel loops of `finalise` and
`_generate_srgb_frame` act pointwise on the doubly indexed stores. -/

theorem foldl_row_pointUpdate {β : Type} (upd : ℕ → ℕ → β → β) (x : ℕ) (ny : ℕ)
    (s : ℕ → ℕ → β) :
    (List.range ny).foldl (fun t y => pointUpdate upd x y t) s =
      fun i j => if i = x ∧ j < ny then upd i j (s i j) else s i j := by
  induction ny generalizing s with
  | zero =>
    funext i j
    simp
  | succ m ih =>
    rw [List.range_succ, List.foldl_append, ih]
    simp only [List.foldl_cons, List.foldl_nil]
    funext i j
    simp only [pointUpdate]
    split_ifs <;> first | rfl | omega

theorem loop2_pointUpdate {β : Type} (nx ny : ℕ) (upd : ℕ → ℕ → β → β)
    (s : ℕ → ℕ → β) :
    loop2 nx ny (pointUpdate upd) s =
      fun i j => if i < nx ∧ j < ny then upd i j (s i j) else s i j := by
  induction nx generalizing s with
  | zero =>
    funext i j
    simp [loop2]
  | succ m ih =>
    unfold loop2 at ih ⊢
    rw [List.range_succ, List.foldl_append, ih]
    simp only [List.foldl_cons, List.foldl_nil]
    rw [foldl_row_pointUpdate]
    funext i j
    split_ifs <;> first | rfl | omega

/-- A fold whose body only rewrites the data component of a frame commutes
with the data projection. -/
theorem foldl_data_lift (l : List ℕ)
    (step : ℕ → (ℕ → ℕ → Fin 3 → Stat) → (ℕ → ℕ → Fin 3 → Stat)) (f : Frame2D) :
    l.foldl (fun fr x => { fr with data := step x fr.data }) f =
      { f with data := l.foldl (fun d x => step x d) f.data } := by
  induction l generalizing f with
  | nil => rfl
  | cons a t ih => simp [List.foldl_cons, ih]

/-- The nested pixel loop over a frame, with a body that only rewrites the
data, equals the same loop run on the data alone. -/
theorem loop2_data_lift (nx ny : ℕ)
    (g : ℕ → ℕ → (ℕ → ℕ → Fin 3 → Stat) → (ℕ → ℕ → Fin 3 → Stat)) (f : Frame2D) :
    loop2 nx ny (fun x y fr => { fr with data := g x y fr.data }) f =
      { f with data := loop2 nx ny g f.data } := by
  unfold loop2
  have h1 : (fun (s : Frame2D) (x : ℕ) =>
      (List.range ny).foldl (fun t y => { t with data := g x y t.data }) s) =
      fun s x => { s with data := (List.range ny).foldl (fun d y => g x y d) s.data } := by
    funext s x
    exact foldl_data_lift (List.range ny) (fun y d => g x y d) s
  rw [h1]
  exact foldl_data_lift (List.range nx)
    (fun x d => (List.range ny).foldl (fun e y => g x y e) d) f

/-- The per-pixel update performed by the body of the finalise loop: each
channel's statistic merged against the working accumulator entry. -/
def mergeUpd (wm wv : ℕ → ℕ → Fin 3 → ℚ) (n : ℕ) (i j : ℕ) (s : Fin 3 → Stat) :
    Fin 3 → Stat :=
  fun k => (s k).combine (wm i j k) (wv i j k) n

/-- Three sequential single-channel `combine_samples` data updates on the
same pixel amount to one pointwise per-pixel update of all three
channels. -/
theorem combine3_eq_pointUpdate (wm wv : ℕ → ℕ → Fin 3 → ℚ) (n : ℕ) (x y : ℕ)
    (d : ℕ → ℕ → Fin 3 → Stat) :
    dataCombine (dataCombine (dataCombine d x y 0 (wm x y 0) (wv x y 0) n)
        x y 1 (wm x y 1) (wv x y 1) n) x y 2 (wm x y 2) (wv x y 2) n =
      pointUpdate (mergeUpd wm wv n) x y d := by
  funext i j k
  simp only [dataCombine, pointUpdate, mergeUpd]
  by_cases hij : i = x ∧ j = y
  · obtain ⟨hx, hy⟩ := hij
    subst hx
    subst hy
    simp only [true_and, and_true, eq_self_iff_true, if_true]
    fin_cases k <;> simp [mergeUpd]
  · have h0 : ¬(i = x ∧ j = y ∧ k = (0 : Fin 3)) := fun h => hij ⟨h.1, h.2.1⟩
    have h1 : ¬(i = x ∧ j = y ∧ k = (1 : Fin 3)) := fun h => hij ⟨h.1, h.2.1⟩
    have h2 : ¬(i = x ∧ j = y ∧ k = (2 : Fin 3)) := fun h => hij ⟨h.1, h.2.1⟩
    simp [h0, h1, h2, hij]

/-- Closed form of the XYZ frame produced by the finalise loop: inside the
frame bounds every channel statistic is merged against the working
accumulator, outside them nothing changes. -/
def mergedFrame (p : RGBPipeline2D) (xf : Frame2D) : Frame2D :=
  { xf with data := fun i j =>
      if i < xf.pixels.1 ∧ j < xf.pixels.2 then
        mergeUpd p.working_mean p.working_variance p.samples i j (xf.data i j)
      else xf.data i j }

/-- Closed form of the display buffer produced by `_generate_srgb_frame`:
inside the display bounds every pixel is the converted, sensitivity-scaled
mean of the XYZ frame, outside them the old contents remain. -/
def srgbFrame (p : RGBPipeline2D) (xf : Frame2D) (rf : RGBFrame)
    (convert : ℚ → ℚ → ℚ → Fin 3 → ℚ) : RGBFrame :=
  { pixels := rf.pixels,
    data := fun i j =>
      if i < rf.pixels.1 ∧ j < rf.pixels.2 then
        fun c => convert ((xf.data i j 0).mean * p.sensitivity)
          ((xf.data i j 1).mean * p.sensitivity)
          ((xf.data i j 2).mean * p.sensitivity) c
      else rf.data i j }

/-- The finalise loop over the XYZ frame computes `mergedFrame`. -/
theorem finalise_frame_spec (p : RGBPipeline2D) (xf : Frame2D) :
    loop2 xf.pixels.1 xf.pixels.2
      (fun x y f =>
        ((f.combine_samples x y 0 (p.working_mean x y 0) (p.working_variance x y 0) p.samples).combine_samples
            x y 1 (p.working_mean x y 1) (p.working_variance x y 1) p.samples).combine_samples
            x y 2 (p.working_mean x y 2) (p.working_variance x y 2) p.samples)
      xf = mergedFrame p xf := by
  have hbody : (fun x y (f : Frame2D) =>
      ((f.combine_samples x y 0 (p.working_mean x y 0) (p.working_variance x y 0) p.samples).combine_samples
          x y 1 (p.working_mean x y 1) (p.working_variance x y 1) p.samples).combine_samples
          x y 2 (p.working_mean x y 2) (p.working_variance x y 2) p.samples) =
      fun x y f => { f with
        data := pointUpdate (mergeUpd p.working_mean p.working_variance p.samples) x y f.data } := by
    funext x y f
    simp only [Frame2D.combine_samples]
    rw [combine3_eq_pointUpdate]
  rw [hbody,
    loop2_data_lift xf.pixels.1 xf.pixels.2
      (pointUpdate (mergeUpd p.working_mean p.working_variance p.samples)) xf,
    loop2_pointUpdate]
  rfl

/-- Closed form of `_generate_srgb_frame` on an initialised pipeline. -/
theorem generate_srgb_spec (p : RGBPipeline2D) (xf : Frame2D) (rf : RGBFrame)
    (convert : ℚ → ℚ → ℚ → Fin 3 → ℚ)
    (hr : p.rgb_frame = some rf) (hx : p.xyz_frame = some xf) :
    p.generate_srgb_frame convert =
      { p with rgb_frame := some (srgbFrame p xf rf convert) } := by
  unfold RGBPipeline2D.generate_srgb_frame
  rw [hr, hx]
  simp only
  rw [loop2_pointUpdate]
  rfl

/-- Closed form of `finalise` on an initialised pipeline: the XYZ frame is
merged pointwise, the display buffer is regenerated from the merged frame,
and the final refresh happens exactly when progress display is enabled. -/
theorem finalise_closed_form (p : RGBPipeline2D) (xf : Frame2D) (rf : RGBFrame)
    (convert : ℚ → ℚ → ℚ → Fin 3 → ℚ)
    (hx : p.xyz_frame = some xf) (hr : p.rgb_frame = some rf) :
    p.finalise convert =
      Except.ok
        ({ p with
            xyz_frame := some (mergedFrame p xf),
            rgb_frame := some (srgbFrame p (mergedFrame p xf) rf convert) },
          p.display_progress) := by
  unfold RGBPipeline2D.finalise
  rw [hx]
  simp only
  rw [finalise_frame_spec]
  have hp1r : ({ p with xyz_frame := some (mergedFrame p xf) } : RGBPipeline2D).rgb_frame = some rf := hr
  rw [generate_srgb_spec { p with xyz_frame := some (mergedFrame p xf) } (mergedFrame p xf) rf convert hp1r rfl]
  cases hdp : p.display_progress with
  | false => rfl
  | true => rfl

/-! Field-preservation lemmas for the display helpers. -/

theorem start_display_xyz (p : RGBPipeline2D) (now : ℚ) :
    (p.start_display now).1.xyz_frame = p.xyz_frame := by
  unfold RGBPipeline2D.start_display
  dsimp only
  split <;> rfl

theorem start_display_rgb (p : RGBPipeline2D) (now : ℚ) :
    (p.start_display now).1.rgb_frame = p.rgb_frame := by
  unfold RGBPipeline2D.start_display
  dsimp only
  split <;> rfl

theorem start_display_wm (p : RGBPipeline2D) (now : ℚ) :
    (p.start_display now).1.working_mean = p.working_mean := by
  unfold RGBPipeline2D.start_display
  dsimp only
  split <;> rfl

theorem start_display_wv (p : RGBPipeline2D) (now : ℚ) :
    (p.start_display now).1.working_variance = p.working_variance := by
  unfold RGBPipeline2D.start_display
  dsimp only
  split <;> rfl

theorem start_display_samples (p : RGBPipeline2D) (now : ℚ) :
    (p.start_display now).1.samples = p.samples := by
  unfold RGBPipeline2D.start_display
  dsimp only
  split <;> rfl

/-- The refresh performed by `_start_display` happens exactly when progress
display is enabled. -/
theorem start_display_snd (p : RGBPipeline2D) (now : ℚ) :
    (p.start_display now).2 = p.display_progress := by
  unfold RGBPipeline2D.start_display
  dsimp only
  split_ifs with h
  · exact h.symm
  · simp only [Bool.not_eq_true] at h
    exact h.symm

theorem generate_srgb_xyz (p : RGBPipeline2D) (convert : ℚ → ℚ → ℚ → Fin 3 → ℚ) :
    (p.generate_srgb_frame convert).xyz_frame = p.xyz_frame := by
  unfold RGBPipeline2D.generate_srgb_frame
  cases hr : p.rgb_frame <;> cases hx : p.xyz_frame <;> first | rfl | exact hx

theorem generate_srgb_wm (p : RGBPipeline2D) (convert : ℚ → ℚ → ℚ → Fin 3 → ℚ) :
    (p.generate_srgb_frame convert).working_mean = p.working_mean := by
  unfold RGBPipeline2D.generate_srgb_frame
  cases hr : p.rgb_frame <;> cases hx : p.xyz_frame <;> rfl

theorem generate_srgb_wv (p : RGBPipeline2D) (convert : ℚ → ℚ → ℚ → Fin 3 → ℚ) :
    (p.generate_srgb_frame convert).working_variance = p.working_variance := by
  unfold RGBPipeline2D.generate_srgb_frame
  cases hr : p.rgb_frame <;> cases hx : p.xyz_frame <;> rfl

theorem update_display_xyz (p : RGBPipeline2D) (convert : ℚ → ℚ → ℚ → Fin 3 → ℚ)
    (now : ℚ) : (p.update_display convert now).1.xyz_frame = p.xyz_frame := by
  unfold RGBPipeline2D.update_display
  split_ifs with h
  · exact generate_srgb_xyz p convert
  · rfl

theorem update_display_wm (p : RGBPipeline2D) (convert : ℚ → ℚ → ℚ → Fin 3 → ℚ)
    (now : ℚ) : (p.update_display convert now).1.working_mean = p.working_mean := by
  unfold RGBPipeline2D.update_display
  split_ifs with h
  · exact generate_srgb_wm p convert
  · rfl

theorem update_display_wv (p : RGBPipeline2D) (convert : ℚ → ℚ → ℚ → Fin 3 → ℚ)
    (now : ℚ) : (p.update_display convert now).1.working_variance = p.working_variance := by
  unfold RGBPipeline2D.update_display
  split_ifs with h
  · exact generate_srgb_wv p convert
  · rfl

/-- The refresh performed by `_update_display` happens exactly when
progress display is enabled and the elapsed time exceeds the configured
interval. -/
theorem update_display_refresh_iff (p : RGBPipeline2D)
    (convert : ℚ → ℚ → ℚ → Fin 3 → ℚ) (now : ℚ) :
    (p.update_display convert now).2 = true ↔
      (p.display_progress = true ∧ now - p.display_timer > p.display_update_time) := by
  unfold RGBPipeline2D.update_display
  split_ifs with h
  · simp [h]
  · simp [h]

/-! Ray-generation helper lemmas and concrete fixtures. -/

theorem zip_replicate_map {α β : Type} (l : List α) (d : β) :
    l.zip (List.replicate l.length d) = l.map (fun a => (a, d)) := by
  induction l with
  | nil => rfl
  | cons a t ih => simp [List.replicate_succ, ih]

theorem zip_map_range_replicate {α β : Type} (n : ℕ) (f : ℕ → α) (d : β) :
    ((List.range n).map f).zip (List.replicate n d) =
      (List.range n).map (fun m => (f m, d)) := by
  have h := zip_replicate_map ((List.range n).map f) d
  simpa [List.map_map] using h

/-- Closed form of `_generate_rays`: the batch is the image of the jitter
stream indices, each ray copying the template onto the translated jittered
origin and the fixed direction. -/
theorem generate_rays_eq_map (c : OrthographicCamera) (jitter : ℕ → ℚ × ℚ)
    (ix iy : ℤ) (tmpl : Ray) :
    c.generate_rays jitter ix iy tmpl =
      (List.range c.pixel_samples).map (fun m =>
        tmpl.copy
          ⟨c.point_generator.width * (jitter m).1 + (c.image_start_x - c.image_delta * (ix : ℚ)),
           c.point_generator.height * (jitter m).2 + (c.image_start_y - c.image_delta * (iy : ℚ)),
           0⟩
          ⟨0, 0, 1⟩) := by
  simp only [OrthographicCamera.generate_rays, Rectangle.sample, SingleRay.sample]
  rw [zip_map_range_replicate, List.map_map]
  rfl

/-- Fixture: camera with a 2 by 2 pixel grid, width 1, one sample per
pixel; the derived geometry and the point generator as built by
`__init__`. -/
def camB0 : OrthographicCamera :=
  { pixels := (2, 2), width := 1, pixel_samples := 1, sub_sample := true,
    image_delta := 1 / 2, image_start_x := 1 / 2, image_start_y := 1 / 2,
    point_generator := ⟨1 / 2, 1 / 2⟩ }

/-- Fixture: `camB0` after `setWidth 2`: the derived geometry is
recomputed, the point generator keeps the construction-time pitch. -/
def camB1 : OrthographicCamera :=
  { pixels := (2, 2), width := 2, pixel_samples := 1, sub_sample := true,
    image_delta := 1, image_start_x := 1, image_start_y := 1,
    point_generator := ⟨1 / 2, 1 / 2⟩ }

/-- Fixture: a constant jitter stream placing every sample at the centre
fraction of the footprint. -/
def jitterHalf : ℕ → ℚ × ℚ := fun _ => (1 / 2, 1 / 2)

/-- Fixture: a ray template. -/
def tmpl0 : Ray :=
  { origin := ⟨0, 0, 0⟩, direction := ⟨0, 0, 1⟩,
    min_wavelength := 375, max_wavelength := 785, num_samples := 21 }

/-- Fixture: a representable stand-in for the external `ciexyz_to_srgb`
transform, used to instantiate theorems that are generic in the colour
transform. -/
def convId : ℚ → ℚ → ℚ → Fin 3 → ℚ :=
  fun x y z k => if k = 0 then x else if k = 1 then y else z

/-- Fixture: an initialised one-pixel pipeline with two recorded samples
and progress display off. -/
def pipe1 : RGBPipeline2D :=
  { RGBPipeline2D.make 1 false 5 false with
    xyz_frame := some (Frame2D.new (1, 1)),
    rgb_frame := some (RGBFrame.zero (1, 1)),
    samples := 2 }

/-- Fixture: a freshly constructed pipeline with progress display off. -/
def pipeNoDisp : RGBPipeline2D := RGBPipeline2D.make 1 false 5 false

/-- Derived-geometry consistency invariant of the orthographic camera:
the pixel pitch and the origin offsets agree with the current width and
pixel dimensions. -/
def GeometryConsistent (c : OrthographicCamera) : Prop :=
  c.image_delta = c.width / (c.pixels.1 : ℚ)
  ∧ c.image_start_x = (1 / 2 : ℚ) * (c.pixels.1 : ℚ) * c.image_delta
  ∧ c.image_start_y = (1 / 2 : ℚ) * (c.pixels.2 : ℚ) * c.image_delta

/-! Claim theorems for the orthographic camera. -/

/-- C7: after construction and after every mutation of width or
pixel_dimensions via their setters, the derived geometry is consistent
(pixel_pitch = width / pixels.x, origin offsets = half the pixel extent
times the pitch), and varying width at fixed pixel dimensions rescales the
pitch proportionally. -/
theorem C7_geometry_consistent_after_mutation :
    (∀ pix w ps ss c, OrthographicCamera.make pix w ps ss = Except.ok c →
      GeometryConsistent c)
  ∧ (∀ c w cw, OrthographicCamera.setWidth c w = Except.ok cw →
      GeometryConsistent cw ∧ cw.pixels = c.pixels ∧ cw.width = w
        ∧ cw.image_delta = w / (c.pixels.1 : ℚ))
  ∧ (∀ c pix, GeometryConsistent (OrthographicCamera.setPixels c pix))
  ∧ (∀ c w cw, GeometryConsistent c → OrthographicCamera.setWidth c w = Except.ok cw →
      cw.image_delta * c.width = c.image_delta * w) := by
  refine ⟨?_, ?_, ?_, ?_⟩
  · intro pix w ps ss c h
    unfold OrthographicCamera.make at h
    split_ifs at h with hw
    simp only [Except.ok.injEq] at h
    subst h
    exact ⟨rfl, rfl, rfl⟩
  · intro c w cw h
    unfold OrthographicCamera.setWidth at h
    split_ifs at h with hw
    simp only [Except.ok.injEq] at h
    subst h
    exact ⟨⟨rfl, rfl, rfl⟩, rfl, rfl, rfl⟩
  · intro c pix
    exact ⟨rfl, rfl, rfl⟩
  · intro c w cw hc h
    unfold OrthographicCamera.setWidth at h
    split_ifs at h with hw
    simp only [Except.ok.injEq] at h
    subst h
    show w / (c.pixels.1 : ℚ) * c.width = c.image_delta * w
    rw [hc.1]
    ring

/-- Witness for C7 at the concrete 2 by 2 camera: construction, a width
mutation and a pixels mutation all leave the geometry consistent, and the
width mutation rescales the pitch proportionally. -/
theorem C7_witness :
    (OrthographicCamera.make (2, 2) 1 1 true = Except.ok camB0 ∧ GeometryConsistent camB0)
  ∧ (GeometryConsistent camB1 ∧ camB1.pixels = camB0.pixels ∧ camB1.width = 2
      ∧ camB1.image_delta = 2 / ((camB0.pixels.1 : ℕ) : ℚ))
  ∧ GeometryConsistent (OrthographicCamera.setPixels camB0 (4, 4))
  ∧ camB1.image_delta * camB0.width = camB0.image_delta * 2 := by
  have hmk : OrthographicCamera.make (2, 2) 1 1 true = Except.ok camB0 := by
    simp only [OrthographicCamera.make, OrthographicCamera.update_image_geometry, camB0]
    norm_num
  have hsw : camB0.setWidth 2 = Except.ok camB1 := by
    simp only [OrthographicCamera.setWidth, OrthographicCamera.update_image_geometry, camB0, camB1]
    norm_num
  have hgc : GeometryConsistent camB0 := by
    unfold GeometryConsistent camB0
    norm_num
  exact ⟨⟨hmk, C7_geometry_consistent_after_mutation.1 (2, 2) 1 1 true camB0 hmk⟩,
    C7_geometry_consistent_after_mutation.2.1 camB0 2 camB1 hsw,
    C7_geometry_consistent_after_mutation.2.2.1 camB0 (4, 4),
    C7_geometry_consistent_after_mutation.2.2.2 camB0 2 camB1 hgc hsw⟩

/-- C8 (code bug witness): after `setWidth` recomputes `image_delta` to 1,
the point generator still carries the construction-time pitch 1/2, so the
next `_generate_rays` call jitters origins across the stale footprint: the
sampled origin is (5/4, 5/4, 0), built from the stale half-pitch, not from
the current `image_delta`. -/
theorem C8_point_generator_stale_after_width_mutation :
    OrthographicCamera.make (2, 2) 1 1 true = Except.ok camB0
  ∧ camB0.setWidth 2 = Except.ok camB1
  ∧ camB1.image_delta = 1
  ∧ camB1.point_generator = ⟨1 / 2, 1 / 2⟩
  ∧ camB1.point_generator.width ≠ camB1.image_delta
  ∧ (camB1.generate_rays jitterHalf 0 0 tmpl0).map Ray.origin = [⟨5 / 4, 5 / 4, 0⟩] := by
  refine ⟨?_, ?_, rfl, rfl, by norm_num [camB1], ?_⟩
  · simp only [OrthographicCamera.make, OrthographicCamera.update_image_geometry, camB0]
    norm_num
  · simp only [OrthographicCamera.setWidth, OrthographicCamera.update_image_geometry, camB0, camB1]
    norm_num
  · rw [generate_rays_eq_map]
    simp only [camB1, jitterHalf, tmpl0, Ray.copy, List.range_succ]
    norm_num

/-- C3: for in-bounds pixel coordinates and a positive sample count, the
generated batch holds exactly `pixel_samples` rays, each the template
copied onto one jittered origin translated into camera space and the fixed
direction; in this pure embedding no state is shared between rays. -/
theorem C3_generate_rays_exact_batch (c : OrthographicCamera) (jitter : ℕ → ℚ × ℚ)
    (ix iy : ℤ) (tmpl : Ray)
    (hx : 0 ≤ ix ∧ ix < (c.pixels.1 : ℤ)) (hy : 0 ≤ iy ∧ iy < (c.pixels.2 : ℤ))
    (hn : 1 ≤ c.pixel_samples) :
    (c.generate_rays jitter ix iy tmpl).length = c.pixel_samples
  ∧ ∀ m, m < c.pixel_samples →
      (c.generate_rays jitter ix iy tmpl).getD m tmpl =
        tmpl.copy
          ⟨c.point_generator.width * (jitter m).1 + (c.image_start_x - c.image_delta * (ix : ℚ)),
           c.point_generator.height * (jitter m).2 + (c.image_start_y - c.image_delta * (iy : ℚ)),
           0⟩
          ⟨0, 0, 1⟩ := by
  constructor
  · rw [generate_rays_eq_map]
    simp
  · intro m hm
    rw [generate_rays_eq_map]
    rw [List.getD_eq_getElem?_getD, List.getElem?_map, List.getElem?_range hm]
    rfl

/-- Witness for C3 at the concrete 2 by 2 camera with one sample. -/
theorem C3_witness :
    ((0 : ℤ) ≤ 0 ∧ (0 : ℤ) < (camB0.pixels.1 : ℤ))
  ∧ ((0 : ℤ) ≤ 0 ∧ (0 : ℤ) < (camB0.pixels.2 : ℤ))
  ∧ 1 ≤ camB0.pixel_samples
  ∧ ((camB0.generate_rays jitterHalf 0 0 tmpl0).length = camB0.pixel_samples
      ∧ ∀ m, m < camB0.pixel_samples →
          (camB0.generate_rays jitterHalf 0 0 tmpl0).getD m tmpl0 =
            tmpl0.copy
              ⟨camB0.point_generator.width * (jitterHalf m).1 + (camB0.image_start_x - camB0.image_delta * ((0 : ℤ) : ℚ)),
               camB0.point_generator.height * (jitterHalf m).2 + (camB0.image_start_y - camB0.image_delta * ((0 : ℤ) : ℚ)),
               0⟩
              ⟨0, 0, 1⟩) :=
  ⟨⟨by decide, by decide⟩, ⟨by decide, by decide⟩, by decide,
    C3_generate_rays_exact_batch camB0 jitterHalf 0 0 tmpl0
      ⟨by decide, by decide⟩ ⟨by decide, by decide⟩ (by decide)⟩

/-- C4 counterexample: the claim says malformed pixel coordinates and
non-positive sample counts are rejected with an invalid-argument error
before any sampling work; in the source `_generate_rays` has no error path
at all: at the out-of-bounds coordinate ix = 5 of the 2 by 2 camera it
performs its full sampling work and returns a one-ray batch, and with a
zero sample count it returns an empty batch instead of an error. -/
theorem C4_counterexample :
    ¬((5 : ℤ) < (camB0.pixels.1 : ℤ))
  ∧ (camB0.generate_rays jitterHalf 5 0 tmpl0).length = camB0.pixel_samples
  ∧ camB0.pixel_samples = 1
  ∧ OrthographicCamera.generate_rays { camB0 with pixel_samples := 0 } jitterHalf 0 0 tmpl0 = [] := by
  refine ⟨by decide, ?_, rfl, rfl⟩
  rw [generate_rays_eq_map]
  simp

/-- C4 as amended: the ray-generation operation performs no validation of
pixel coordinates or sample count; for every pixel coordinate, in-bounds or
not, it returns a batch of exactly `pixel_samples` rays, and a zero sample
count yields an empty batch rather than an error. -/
theorem C4_amended_no_validation (c : OrthographicCamera) (jitter : ℕ → ℚ × ℚ)
    (ix iy : ℤ) (tmpl : Ray) :
    (c.generate_rays jitter ix iy tmpl).length = c.pixel_samples := by
  rw [generate_rays_eq_map]
  simp

/-- C10: the `sub_sample` flag has no influence on ray generation: two
camera states identical except for `sub_sample` generate the same batch for
every pixel coordinate, jitter stream and template. -/
theorem C10_sub_sample_no_influence (c : OrthographicCamera) (b : Bool)
    (jitter : ℕ → ℚ × ℚ) (ix iy : ℤ) (tmpl : Ray) :
    OrthographicCamera.generate_rays { c with sub_sample := b } jitter ix iy tmpl =
      c.generate_rays jitter ix iy tmpl := rfl

/-- With no display buffer, `_generate_srgb_frame` leaves the pipeline
unchanged (the source would crash; the state is unreachable through the
public operations). -/
theorem generate_srgb_none (p : RGBPipeline2D) (convert : ℚ → ℚ → ℚ → Fin 3 → ℚ)
    (hr : p.rgb_frame = none) : p.generate_srgb_frame convert = p := by
  unfold RGBPipeline2D.generate_srgb_frame
  rw [hr]

/-- Closed form of `finalise` on a pipeline with an XYZ frame but no
display buffer (unreachable through the public operations): the merge still
happens, the display-buffer regeneration is a no-op, and with progress
display enabled the final display call raises the not-ready error. -/
theorem finalise_rgb_none (p : RGBPipeline2D) (xf : Frame2D)
    (convert : ℚ → ℚ → ℚ → Fin 3 → ℚ)
    (hx : p.xyz_frame = some xf) (hr : p.rgb_frame = none) :
    p.finalise convert =
      if p.display_progress = true then Except.error "No frame data to display."
      else Except.ok ({ p with xyz_frame := some (mergedFrame p xf) }, false) := by
  unfold RGBPipeline2D.finalise
  rw [hx]
  simp only
  rw [finalise_frame_spec]
  rw [generate_srgb_none { p with xyz_frame := some (mergedFrame p xf) } convert hr]
  simp only [RGBPipeline2D.display, hr]

/-! Claim theorems for the accumulation pipeline. -/

/-- C1: on an initialised pipeline, `finalise` merges, for every pixel and
channel, the working accumulator's (mean, variance) entry into the frame
buffer's statistic with the pooled two-group merge rule, the recorded
`pixel_samples` supplying the new group's count, and then regenerates the
display buffer from the updated frame buffer through the external colour
transform. -/
theorem C1_finalise_merges_and_regenerates (p : RGBPipeline2D) (xf : Frame2D)
    (rf : RGBFrame) (convert : ℚ → ℚ → ℚ → Fin 3 → ℚ)
    (hx : p.xyz_frame = some xf) (hr : p.rgb_frame = some rf) :
    ∃ q flag xf2 rf2,
      p.finalise convert = Except.ok (q, flag)
      ∧ q.xyz_frame = some xf2 ∧ q.rgb_frame = some rf2
      ∧ xf2.pixels = xf.pixels ∧ rf2.pixels = rf.pixels
      ∧ (∀ i j (k : Fin 3), i < xf.pixels.1 → j < xf.pixels.2 →
          xf2.data i j k = (xf.data i j k).combine (p.working_mean i j k)
            (p.working_variance i j k) p.samples)
      ∧ (∀ i j (k : Fin 3), i < rf.pixels.1 → j < rf.pixels.2 →
          rf2.data i j k = convert ((xf2.data i j 0).mean * p.sensitivity)
            ((xf2.data i j 1).mean * p.sensitivity)
            ((xf2.data i j 2).mean * p.sensitivity) k) := by
  refine ⟨_, _, mergedFrame p xf, srgbFrame p (mergedFrame p xf) rf convert,
    finalise_closed_form p xf rf convert hx hr, rfl, rfl, rfl, rfl, ?_, ?_⟩
  · intro i j k hi hj
    simp only [mergedFrame]
    rw [if_pos ⟨hi, hj⟩]
    rfl
  · intro i j k hi hj
    simp only [srgbFrame]
    rw [if_pos ⟨hi, hj⟩]

/-- Witness for C1 at a concrete initialised one-pixel pipeline. -/
theorem C1_witness :
    pipe1.xyz_frame = some (Frame2D.new (1, 1))
  ∧ pipe1.rgb_frame = some (RGBFrame.zero (1, 1))
  ∧ ∃ q flag xf2 rf2,
      pipe1.finalise convId = Except.ok (q, flag)
      ∧ q.xyz_frame = some xf2 ∧ q.rgb_frame = some rf2
      ∧ xf2.pixels = (Frame2D.new (1, 1)).pixels
      ∧ rf2.pixels = (RGBFrame.zero (1, 1)).pixels
      ∧ (∀ i j (k : Fin 3), i < (Frame2D.new (1, 1)).pixels.1 →
            j < (Frame2D.new (1, 1)).pixels.2 →
          xf2.data i j k = ((Frame2D.new (1, 1)).data i j k).combine
            (pipe1.working_mean i j k) (pipe1.working_variance i j k) pipe1.samples)
      ∧ (∀ i j (k : Fin 3), i < (RGBFrame.zero (1, 1)).pixels.1 →
            j < (RGBFrame.zero (1, 1)).pixels.2 →
          rf2.data i j k = convId ((xf2.data i j 0).mean * pipe1.sensitivity)
            ((xf2.data i j 1).mean * pipe1.sensitivity)
            ((xf2.data i j 2).mean * pipe1.sensitivity) k) :=
  ⟨rfl, rfl, C1_finalise_merges_and_regenerates pipe1 (Frame2D.new (1, 1))
    (RGBFrame.zero (1, 1)) convId rfl rfl⟩

/-- C2: `initialise` reuses the existing frame buffers iff accumulate mode
is on, a frame buffer exists and its pixel dimensions equal the requested
ones; any mismatch reallocates both buffers zero-filled; and in every case
a fresh zeroed working accumulator is installed and `pixel_samples` is
recorded. -/
theorem C2_initialise_reuse_iff (p : RGBPipeline2D) (pixels : ℕ × ℕ) (ps : ℕ)
    (slices : List SpectralSlice) (now : ℚ) :
    ((p.initialise pixels ps slices now).1.working_mean = fun _ _ _ => (0 : ℚ))
  ∧ ((p.initialise pixels ps slices now).1.working_variance = fun _ _ _ => (0 : ℚ))
  ∧ ((p.initialise pixels ps slices now).1.samples = ps)
  ∧ (∀ f, p.accumulate = true → p.xyz_frame = some f → f.pixels = pixels →
      (p.initialise pixels ps slices now).1.xyz_frame = some f
      ∧ (p.initialise pixels ps slices now).1.rgb_frame = p.rgb_frame)
  ∧ ((p.accumulate = false ∨ p.xyz_frame = none
        ∨ ∃ f, p.xyz_frame = some f ∧ f.pixels ≠ pixels) →
      (p.initialise pixels ps slices now).1.xyz_frame = some (Frame2D.new pixels)
      ∧ (p.initialise pixels ps slices now).1.rgb_frame = some (RGBFrame.zero pixels)) := by
  refine ⟨?_, ?_, ?_, ?_, ?_⟩
  · simp only [RGBPipeline2D.initialise, start_display_wm]
  · simp only [RGBPipeline2D.initialise, start_display_wv]
  · simp only [RGBPipeline2D.initialise, start_display_samples]
  · intro f ha hxf hpe
    constructor
    · simp [RGBPipeline2D.initialise, start_display_xyz, ha, hxf, hpe]
    · simp [RGBPipeline2D.initialise, start_display_rgb, ha, hxf, hpe]
  · intro h
    rcases h with ha | hn | ⟨f, hxf, hne⟩
    · constructor
      · simp [RGBPipeline2D.initialise, start_display_xyz, ha]
      · simp [RGBPipeline2D.initialise, start_display_rgb, ha]
    · constructor
      · simp [RGBPipeline2D.initialise, start_display_xyz, hn]
      · simp [RGBPipeline2D.initialise, start_display_rgb, hn]
    · constructor
      · simp [RGBPipeline2D.initialise, start_display_xyz, hxf, bne_iff_ne, hne]
      · simp [RGBPipeline2D.initialise, start_display_rgb, hxf, bne_iff_ne, hne]

/-- Witness for C2 at a concrete pipeline and geometry. -/
theorem C2_witness :
    ((pipe1.initialise (2, 2) 3 [] 0).1.working_mean = fun _ _ _ => (0 : ℚ))
  ∧ ((pipe1.initialise (2, 2) 3 [] 0).1.working_variance = fun _ _ _ => (0 : ℚ))
  ∧ ((pipe1.initialise (2, 2) 3 [] 0).1.samples = 3)
  ∧ (∀ f, pipe1.accumulate = true → pipe1.xyz_frame = some f → f.pixels = (2, 2) →
      (pipe1.initialise (2, 2) 3 [] 0).1.xyz_frame = some f
      ∧ (pipe1.initialise (2, 2) 3 [] 0).1.rgb_frame = pipe1.rgb_frame)
  ∧ ((pipe1.accumulate = false ∨ pipe1.xyz_frame = none
        ∨ ∃ f, pipe1.xyz_frame = some f ∧ f.pixels ≠ (2, 2)) →
      (pipe1.initialise (2, 2) 3 [] 0).1.xyz_frame = some (Frame2D.new (2, 2))
      ∧ (pipe1.initialise (2, 2) 3 [] 0).1.rgb_frame = some (RGBFrame.zero (2, 2))) :=
  C2_initialise_reuse_iff pipe1 (2, 2) 3 [] 0

/-- C9: `update` leaves the frame buffer's statistics unchanged, leaves the
working accumulator entries of every other pixel unchanged, and adds the
packed per-channel mean and variance into the accumulator at the target
pixel. -/
theorem C9_update_only_target_pixel (p : RGBPipeline2D) (x y : ℕ)
    (packed : (Fin 3 → ℚ) × (Fin 3 → ℚ)) (sid : ℕ)
    (convert : ℚ → ℚ → ℚ → Fin 3 → ℚ) (now : ℚ) :
    ((p.update (x, y) packed sid convert now).1.xyz_frame = p.xyz_frame)
  ∧ (∀ i j (k : Fin 3), ¬(i = x ∧ j = y) →
      (p.update (x, y) packed sid convert now).1.working_mean i j k = p.working_mean i j k
      ∧ (p.update (x, y) packed sid convert now).1.working_variance i j k = p.working_variance i j k)
  ∧ (∀ k : Fin 3,
      (p.update (x, y) packed sid convert now).1.working_mean x y k
        = p.working_mean x y k + packed.1 k
      ∧ (p.update (x, y) packed sid convert now).1.working_variance x y k
        = p.working_variance x y k + packed.2 k) := by
  refine ⟨?_, ?_, ?_⟩
  · simp only [RGBPipeline2D.update, update_display_xyz]
  · intro i j k hij
    constructor
    · simp only [RGBPipeline2D.update, update_display_wm]
      simp [hij]
    · simp only [RGBPipeline2D.update, update_display_wv]
      simp [hij]
  · intro k
    constructor
    · simp only [RGBPipeline2D.update, update_display_wm]
      simp
    · simp only [RGBPipeline2D.update, update_display_wv]
      simp

/-- Witness for C9 at a concrete pipeline, pixel and packed result. -/
theorem C9_witness :
    ((pipe1.update (0, 0) (fun _ => 1, fun _ => 2) 0 convId 1).1.xyz_frame = pipe1.xyz_frame)
  ∧ (∀ i j (k : Fin 3), ¬(i = 0 ∧ j = 0) →
      (pipe1.update (0, 0) (fun _ => 1, fun _ => 2) 0 convId 1).1.working_mean i j k
        = pipe1.working_mean i j k
      ∧ (pipe1.update (0, 0) (fun _ => 1, fun _ => 2) 0 convId 1).1.working_variance i j k
        = pipe1.working_variance i j k)
  ∧ (∀ k : Fin 3,
      (pipe1.update (0, 0) (fun _ => 1, fun _ => 2) 0 convId 1).1.working_mean 0 0 k
        = pipe1.working_mean 0 0 k + (fun _ : Fin 3 => (1 : ℚ)) k
      ∧ (pipe1.update (0, 0) (fun _ => 1, fun _ => 2) 0 convId 1).1.working_variance 0 0 k
        = pipe1.working_variance 0 0 k + (fun _ : Fin 3 => (2 : ℚ)) k) :=
  C9_update_only_target_pixel pipe1 0 0 (fun _ => 1, fun _ => 2) 0 convId 1

/-- C5: `save` and `display` raise the not-ready error iff no display
buffer exists; the error paths return before producing any output and the
operations are pure, so no pipeline state changes; with a display buffer
present, `save` writes it with the two spatial axes transposed.  A display
buffer is absent at construction and present right after `initialise`. -/
theorem C5_save_display_not_ready (p : RGBPipeline2D) (sens dut : ℚ)
    (dp acc : Bool) (pixels : ℕ × ℕ) (ps : ℕ) (slices : List SpectralSlice) (now : ℚ) :
    (p.save = Except.error "No frame data to save." ↔ p.rgb_frame = none)
  ∧ (p.display = Except.error "No frame data to display." ↔ p.rgb_frame = none)
  ∧ (∀ rf, p.rgb_frame = some rf → p.save = Except.ok rf.transpose)
  ∧ (RGBPipeline2D.make sens dp dut acc).rgb_frame = none
  ∧ (((RGBPipeline2D.make sens dp dut acc).initialise pixels ps slices now).1.rgb_frame
      = some (RGBFrame.zero pixels)) := by
  refine ⟨?_, ?_, ?_, rfl, ?_⟩
  · unfold RGBPipeline2D.save
    cases hr : p.rgb_frame <;> simp
  · unfold RGBPipeline2D.display
    cases hr : p.rgb_frame <;> cases hx : p.xyz_frame <;> simp
  · intro rf hr
    unfold RGBPipeline2D.save
    rw [hr]
  · simp [RGBPipeline2D.initialise, RGBPipeline2D.make, start_display_rgb]

/-- Witness for C5 at a concrete initialised pipeline. -/
theorem C5_witness :
    (pipe1.save = Except.error "No frame data to save." ↔ pipe1.rgb_frame = none)
  ∧ (pipe1.display = Except.error "No frame data to display." ↔ pipe1.rgb_frame = none)
  ∧ (∀ rf, pipe1.rgb_frame = some rf → pipe1.save = Except.ok rf.transpose)
  ∧ (RGBPipeline2D.make 1 true 5 false).rgb_frame = none
  ∧ (((RGBPipeline2D.make 1 true 5 false).initialise (2, 2) 4 [] 0).1.rgb_frame
      = some (RGBFrame.zero (2, 2))) :=
  C5_save_display_not_ready pipe1 1 5 true false (2, 2) 4 [] 0

/-- C6 counterexample: the claim says a display refresh is performed
unconditionally at `initialise`; with progress display disabled the source
performs no refresh at `initialise`. -/
theorem C6_counterexample :
    pipeNoDisp.display_progress = false
  ∧ (pipeNoDisp.initialise (1, 1) 1 [] 0).2 = false :=
  ⟨rfl, rfl⟩

/-- C6 as amended: a refresh is performed at `initialise` exactly when
progress display is enabled, regardless of elapsed time; `update` refreshes
exactly when progress display is enabled and the elapsed wall-clock time
exceeds `display_update_time` (default 5); `finalise` performs its final
refresh exactly when progress display is enabled, regardless of elapsed
time. -/
theorem C6_amended_refresh_policy (p : RGBPipeline2D) (pixels : ℕ × ℕ) (ps : ℕ)
    (slices : List SpectralSlice) (now : ℚ) (pid : ℕ × ℕ)
    (packed : (Fin 3 → ℚ) × (Fin 3 → ℚ)) (sid : ℕ)
    (convert : ℚ → ℚ → ℚ → Fin 3 → ℚ) (now2 : ℚ) :
    ((p.initialise pixels ps slices now).2 = p.display_progress)
  ∧ ((p.update pid packed sid convert now2).2 = true ↔
      (p.display_progress = true ∧ now2 - p.display_timer > p.display_update_time))
  ∧ (∀ q b, p.finalise convert = Except.ok (q, b) → b = p.display_progress)
  ∧ RGBPipeline2D.mkDefault.display_update_time = 5 := by
  refine ⟨?_, ?_, ?_, rfl⟩
  · simp only [RGBPipeline2D.initialise, start_display_snd]
    split <;> rfl
  · simp only [RGBPipeline2D.update]
    rw [update_display_refresh_iff]
  · intro q b h
    cases hx : p.xyz_frame with
    | none =>
      unfold RGBPipeline2D.finalise at h
      rw [hx] at h
      simp at h
    | some xf =>
      cases hr : p.rgb_frame with
      | some rf =>
        rw [finalise_closed_form p xf rf convert hx hr] at h
        simp only [Except.ok.injEq, Prod.mk.injEq] at h
        exact h.2.symm
      | none =>
        rw [finalise_rgb_none p xf convert hx hr] at h
        cases hdp : p.display_progress with
        | true =>
          rw [hdp] at h
          simp at h
        | false =>
          rw [hdp] at h
          simp only [Bool.false_eq_true, if_false, Except.ok.injEq, Prod.mk.injEq] at h
          exact h.2.symm

/-- Witness for C6 at a concrete pipeline, time stamps and inputs. -/
theorem C6_witness :
    ((pipe1.initialise (1, 1) 1 [] 0).2 = pipe1.display_progress)
  ∧ ((pipe1.update (0, 0) (fun _ => 1, fun _ => 0) 0 convId 10).2 = true ↔
      (pipe1.display_progress = true ∧ 10 - pipe1.display_timer > pipe1.display_update_time))
  ∧ (∀ q b, pipe1.finalise convId = Except.ok (q, b) → b = pipe1.display_progress)
  ∧ RGBPipeline2D.mkDefault.display_update_time = 5 :=
  C6_amended_refresh_policy pipe1 (1, 1) 1 [] 0 (0, 0) (fun _ => 1, fun _ => 0) 0 convId 10

end Raysect
